import Mathlib

/-!
A shallow embedding of the branch tab of mergemate (`ui/tabs/branch.go`):
the source-branch table, the target-branch picker, the workflow mode flag,
key handling, and the merge-request creation command, together with proofs
of the workflow properties stated in the specification.

The external widgets (`bubble-table`, `bubbles/list`) and the GitLab client
are collaborators outside this core; only the parts of their state and
contracts that the tab itself observes or mutates are modelled, and the
client's responses enter the model as explicit oracle arguments. A Go
runtime panic (a nil type assertion, an out-of-range index) is rendered as
`none` in the model.
-/

namespace Mergemate

/-- A commit, as carried by `gitlab.Branch` (`Commit.Message`,
`Commit.AuthoredDate`); the authored date is kept as its already formatted
local-time string, the formatting done by the external time package being
out of scope. -/
structure Commit where
  message : String
  authoredDate : String
  deriving DecidableEq

/-- `gitlab.Branch`: name, default-branch flag (`Default`) and last
commit. -/
structure Branch where
  name : String
  default : Bool
  commit : Commit
  deriving DecidableEq

/-- `gitlab.MergeRequestDetails` is defined outside the provided sources;
only its `Iid` is used by this tab (for the note call), the rest is opaque
metadata carried through unchanged. -/
structure MergeRequestDetails where
  iid : Nat
  deriving DecidableEq

/-- A table row as built in the `UserBranches` arm of `Update`: the branch
name cell, the last-commit cell and the full branch record kept as row
metadata (`columnKeyBranchMetadata`). -/
structure Row where
  branchName : String
  lastCommit : String
  branchDetails : Branch
  deriving DecidableEq

/-- The state of the `bubble-table` widget that this tab observes and
mutates: its rows, the highlight cursor, the page, and the two values set
by `recalculateComponents` (target width and page size). The widget's own
layout machinery is an external collaborator and is not modelled. -/
structure FlexTable where
  rows : List Row
  rowCursorIndex : Nat
  currentPage : Nat
  targetWidth : Int
  pageSize : Nat
  deriving DecidableEq

/-- `WithRows`: full replacement of the row set. -/
def FlexTable.withRows (t : FlexTable) (rows : List Row) : FlexTable :=
  { t with rows := rows }

/-- `PageFirst`: back to the first page. -/
def FlexTable.pageFirst (t : FlexTable) : FlexTable :=
  { t with currentPage := 1 }

/-- `HighlightedRow`: the row under the cursor. The Go widget returns an
empty `Row` with a nil metadata map when the table is empty; that case is
modelled as `none`, and reading branch metadata out of it is the nil type
assertion that panics. -/
def FlexTable.highlightedRow (t : FlexTable) : Option Row :=
  t.rows.get? t.rowCursorIndex

/-- `branchItem`: a picker entry showing a target branch name. -/
structure BranchItem where
  name : String
  deriving DecidableEq

/-- Filter state of the `bubbles` list widget. -/
inductive FilterState where
  | unfiltered
  | filtering
  | filterApplied
  deriving DecidableEq

/-- The state of the `bubbles` list widget that this tab observes and
mutates: the item set, the items currently visible under the filter, the
selection index, the filter state and the size set by
`recalculateComponents`. Filter editing itself is external widget
behaviour. -/
structure ListModel where
  items : List BranchItem
  visibleItems : List BranchItem
  index : Nat
  filterState : FilterState
  width : Int
  height : Int
  deriving DecidableEq

/-- `SetItems`: replaces the item set (the widget re-derives the visible
items from it). -/
def ListModel.setItems (l : ListModel) (xs : List BranchItem) : ListModel :=
  { l with items := xs, visibleItems := xs }

/-- `ResetFilter`. -/
def ListModel.resetFilter (l : ListModel) : ListModel :=
  { l with filterState := FilterState.unfiltered, visibleItems := l.items }

/-- `ResetSelected`. -/
def ListModel.resetSelected (l : ListModel) : ListModel :=
  { l with index := 0 }

/-- `SelectedItem`: `none` when the list is empty or filtered down to
nothing; reading a `branchItem` out of `none` is the nil type assertion
that panics. -/
def ListModel.selectedItem (l : ListModel) : Option BranchItem :=
  l.visibleItems.get? l.index

/-- The enabled flags of `keys.BranchKeyMap` that
`changeBranchSelectionVisibility` toggles. `key.Matches` only matches an
enabled binding. One flag per favourite-branch binding, in the order of
the favourite list. -/
structure BranchKeyMap where
  mergeAutomaticallyEnabled : Bool
  closeEnabled : Bool
  selectEnabled : Bool
  mergeFavouriteEnabled : List Bool
  deriving DecidableEq

/-- The read-only configuration this tab takes from `context.AppContext`. -/
structure AppContext where
  windowWidth : Int
  horizontalFrameSize : Int
  tableContentHeight : Int
  tablePageSize : Nat
  favouriteBranches : List String
  deriving DecidableEq

/-- `BranchTable`: the component state. -/
structure BranchTable where
  branchesList : ListModel
  flexTable : FlexTable
  keys : BranchKeyMap
  context : AppContext
  showMergeTargets : Bool
  deriving DecidableEq

/-- Identity of a pressed key, by the binding of `keys.BranchKeyMap` its
key sequence belongs to (the bindings use distinct key sequences);
`other` is any key not bound here, handled by the visible widget. -/
inductive BranchKey where
  | mergeAutomatically
  | closeTargetBranchesList
  | selectTargetBranch
  | mergeFavourite (i : Nat)
  | other
  deriving DecidableEq

/-- Error classification of the merge-request creation call, as
distinguished in `createMergeRequest`: `gitlab.MergeRequestAlreadyExists`
(via `errors.Is`), a `net.Error` (via `errors.As`), or anything else. -/
inductive ClientError where
  | mergeRequestAlreadyExists
  | netError
  | otherError
  deriving DecidableEq

/-- The messages this tab receives or emits. `failed` — modelled from the
spec: the `failed` helper is defined outside the provided sources; per the
spec it wraps a short human-readable message into the merge-request-failed
notification consumed by sibling components. -/
inductive Msg where
  | userBranches (branches : List Branch)
  | targetBranches (branches : List Branch)
  | updatedContext
  | keyMsg (k : BranchKey)
  | failed (message : String)
  | mergeRequestCreated (mergeRequest : MergeRequestDetails)
  deriving DecidableEq

/-- The commands `Update` can issue towards the network. -/
inductive Cmd where
  | createMergeRequest (sourceBranch targetBranch title : String)
  deriving DecidableEq

/-- `strings.IndexByte(title, '\n')`, with -1 rendered as `none`. Go
titles are byte strings; they are modelled as character lists. -/
def indexOfNewline : List Char → Option Nat
  | [] => none
  | c :: cs => if c = '\n' then some 0 else (indexOfNewline cs).map (fun i => i + 1)

/-- The `"..."` marker appended by `shortenTitle`. -/
def ellipsis : List Char := ['.', '.', '.']

/-- `shortenTitle`: cut at the first line break, then cap at 255 by
truncating to 250 characters plus the ellipsis marker. -/
def shortenTitle (title : List Char) : List Char :=
  let t := match indexOfNewline title with
    | some idx => title.take idx
    | none => title
  if 255 < t.length then t.take 250 ++ ellipsis else t

/-- `shortenTitle` on Go strings, modelled as Lean strings. -/
def shortenTitleS (title : String) : String :=
  String.mk (shortenTitle title.data)

/-- The command closure built by `BranchTable.createMergeRequest`, as a
function of the external client's responses: the client is called with the
shortened title; its error is classified (already exists / network /
other); on success the automation note is attached, and a note failure is
only logged — the closure then returns the nil message, modelled as
`none`. -/
def createMergeRequest
    (client : String → String → String → Except ClientError MergeRequestDetails)
    (noteClient : Nat → Except Unit Unit)
    (sourceBranch targetBranch title : String) : Option Msg :=
  match client sourceBranch targetBranch (shortenTitleS title) with
  | Except.error ClientError.mergeRequestAlreadyExists =>
      some (Msg.failed ("merge request from branch " ++ sourceBranch ++ " already exists"))
  | Except.error ClientError.netError =>
      some (Msg.failed "merge request creation failed, please check your network connection")
  | Except.error ClientError.otherError =>
      some (Msg.failed "unrecognized error when creating merge request, please check log file")
  | Except.ok mergeRequest =>
      match noteClient mergeRequest.iid with
      | Except.error _ => none
      | Except.ok _ => some (Msg.mergeRequestCreated mergeRequest)

/-- `contentSize`. -/
def contentSize (m : BranchTable) : Int :=
  m.context.windowWidth - m.context.horizontalFrameSize

/-- `tableSize`: the full content width while browsing, 70 percent of it
while picking. Go truncates `float64(contentSize) * 0.7` to an int; the
truncation is rendered as integer division, on which no verified property
depends. -/
def tableSize (m : BranchTable) : Int :=
  if m.showMergeTargets then 7 * contentSize m / 10 else contentSize m

/-- `recalculateComponents`. -/
def recalculateComponents (m : BranchTable) : BranchTable :=
  { m with
    flexTable := { m.flexTable with
      targetWidth := tableSize m,
      pageSize := m.context.tablePageSize },
    branchesList := { m.branchesList with
      width := contentSize m - tableSize m,
      height := m.context.tableContentHeight } }

/-- `changeBranchSelectionVisibility`: flips the binding flags, sets the
mode flag, recomputes the pane sizes and resets the picker's filter and
selection. -/
def changeBranchSelectionVisibility (m : BranchTable) (visible : Bool) : BranchTable :=
  let m1 := { m with
    keys := { m.keys with
      closeEnabled := visible,
      selectEnabled := visible,
      mergeAutomaticallyEnabled := !visible },
    showMergeTargets := visible }
  let m2 := recalculateComponents m1
  let m3 := { m2 with branchesList := (m2.branchesList.resetFilter).resetSelected }
  { m3 with keys := { m3.keys with
      mergeFavouriteEnabled := m3.keys.mergeFavouriteEnabled.map (fun _ => !visible) } }

/-- The reaction of the external table widget to a forwarded message
(pagination, cursor movement): external collaborator behaviour outside
this core; it never touches the fields modelled here, so it is the
identity on the modelled state, and its own commands are not modelled. -/
def tableWidgetUpdate (_ : Msg) (t : FlexTable) : FlexTable := t

/-- The reaction of the external list widget to a forwarded message
(cursor movement, filter editing): external collaborator behaviour,
modelled as the identity on the modelled state. -/
def listWidgetUpdate (_ : Msg) (l : ListModel) : ListModel := l

/-- The tail of `Update`: the message is forwarded to whichever widget is
currently visible. -/
def forwardToWidgets (m : BranchTable) (msg : Msg) : BranchTable :=
  if m.showMergeTargets then
    { m with branchesList := listWidgetUpdate msg m.branchesList }
  else
    { m with flexTable := tableWidgetUpdate msg m.flexTable }

/-- The row built for one branch in the `UserBranches` arm (the authored
date is carried already formatted, see `Commit`). -/
def mkRow (b : Branch) : Row :=
  { branchName := b.name, lastCommit := b.commit.authoredDate, branchDetails := b }

/-- The picker item built for one branch in the `TargetBranches` arm. -/
def itemOf (b : Branch) : BranchItem :=
  { name := b.name }

/-- One step of the `TargetBranches` loop: a default branch is prepended
to the list built so far, any other branch is appended. -/
def targetStep (acc : List BranchItem) (b : Branch) : List BranchItem :=
  if b.default then itemOf b :: acc else acc ++ [itemOf b]

/-- The item list built by the `TargetBranches` arm (`applyTargets` in the
spec). -/
def applyTargets (branches : List Branch) : List BranchItem :=
  branches.foldl targetStep []

/-- The favourite-merge arm of the `default` case of `Update`: the pressed
key matches the favourite binding of index `i` when that binding exists
and is enabled (the bindings use distinct keys, so no other index
matches); the highlighted row's metadata and the favourite branch of index
`i` are then read unchecked — `none` models the panic of the nil type
assertion or of an out-of-range index. -/
def mergeFavouriteCase (m : BranchTable) (i : Nat) (msg : Msg) :
    Option (BranchTable × List Cmd) :=
  if m.keys.mergeFavouriteEnabled.getD i false = true ∧ m.showMergeTargets = false then
    match m.flexTable.highlightedRow, m.context.favouriteBranches.get? i with
    | some row, some fav =>
        some (forwardToWidgets m msg,
          [Cmd.createMergeRequest row.branchDetails.name fav row.branchDetails.commit.message])
    | _, _ => none
  else
    some (forwardToWidgets m msg, [])

/-- `BranchTable.Update`, with a runtime panic rendered as `none`. The
guards mirror the Go switch: a binding can only fire when `key.Matches`
accepts it (the binding is enabled) and its explicit guard holds; any
message falls through to the visible widget at the end. -/
def Update (m : BranchTable) (msg : Msg) : Option (BranchTable × List Cmd) :=
  match msg with
  | Msg.userBranches branches =>
      let m1 := { m with flexTable := (m.flexTable.withRows (branches.map mkRow)).pageFirst }
      some (forwardToWidgets m1 msg, [])
  | Msg.targetBranches branches =>
      let m1 := { m with branchesList := m.branchesList.setItems (applyTargets branches) }
      some (forwardToWidgets m1 msg, [])
  | Msg.updatedContext =>
      some (forwardToWidgets (recalculateComponents m) msg, [])
  | Msg.keyMsg k =>
      match k with
      | BranchKey.mergeAutomatically =>
          if m.keys.mergeAutomaticallyEnabled = true ∧ m.showMergeTargets = false then
            some (forwardToWidgets (changeBranchSelectionVisibility m true) msg, [])
          else
            some (forwardToWidgets m msg, [])
      | BranchKey.closeTargetBranchesList =>
          if m.keys.closeEnabled = true ∧ m.showMergeTargets = true ∧
              m.branchesList.filterState ≠ FilterState.filtering then
            some (forwardToWidgets (changeBranchSelectionVisibility m false) msg, [])
          else
            some (forwardToWidgets m msg, [])
      | BranchKey.selectTargetBranch =>
          if m.keys.selectEnabled = true ∧ m.showMergeTargets = true ∧
              m.branchesList.filterState ≠ FilterState.filtering then
            match m.flexTable.highlightedRow, m.branchesList.selectedItem with
            | some sourceRow, some targetItem =>
                some (forwardToWidgets (changeBranchSelectionVisibility m false) msg,
                  [Cmd.createMergeRequest sourceRow.branchDetails.name targetItem.name
                    sourceRow.branchDetails.commit.message])
            | _, _ => none
          else
            some (forwardToWidgets m msg, [])
      | BranchKey.mergeFavourite i => mergeFavouriteCase m i msg
      | BranchKey.other =>
          some (forwardToWidgets m msg, [])
  | Msg.failed _ =>
      some (forwardToWidgets m msg, [])
  | Msg.mergeRequestCreated _ =>
      some (forwardToWidgets m msg, [])

/-- A small concrete configuration used by concrete evaluations. -/
def sampleContext : AppContext :=
  { windowWidth := 120, horizontalFrameSize := 4, tableContentHeight := 30,
    tablePageSize := 10, favouriteBranches := ["develop"] }

/-- A browsing-mode state whose branch table is empty (nothing fetched or
no branch matched the user prefix), with the browsing bindings enabled. -/
def browsingEmptyTable : BranchTable :=
  { branchesList :=
      { items := [{ name := "main" }], visibleItems := [{ name := "main" }],
        index := 0, filterState := FilterState.unfiltered, width := 0, height := 30 },
    flexTable := { rows := [], rowCursorIndex := 0, currentPage := 1,
                   targetWidth := 116, pageSize := 10 },
    keys := { mergeAutomaticallyEnabled := true, closeEnabled := false,
              selectEnabled := false, mergeFavouriteEnabled := [true] },
    context := sampleContext,
    showMergeTargets := false }

/-- A picking-mode state whose branch table is empty while the picker has
a selectable item, with the picking bindings enabled and no filter
active. -/
def pickingEmptyTable : BranchTable :=
  { branchesList :=
      { items := [{ name := "main" }], visibleItems := [{ name := "main" }],
        index := 0, filterState := FilterState.unfiltered, width := 35, height := 30 },
    flexTable := { rows := [], rowCursorIndex := 0, currentPage := 1,
                   targetWidth := 81, pageSize := 10 },
    keys := { mergeAutomaticallyEnabled := false, closeEnabled := true,
              selectEnabled := true, mergeFavouriteEnabled := [false] },
    context := sampleContext,
    showMergeTargets := true }

/-- A concrete non-default branch. -/
def brA : Branch :=
  { name := "feature/a", default := false,
    commit := { message := "first commit", authoredDate := "2024-01-01 10:00:00" } }

/-- A second concrete non-default branch. -/
def brB : Branch :=
  { name := "feature/b", default := false,
    commit := { message := "second commit", authoredDate := "2024-01-02 10:00:00" } }

/-- A concrete default branch. -/
def brMain : Branch :=
  { name := "main", default := true,
    commit := { message := "init", authoredDate := "2024-01-03 10:00:00" } }

/-- A second concrete branch marked default. -/
def brDev : Branch :=
  { name := "develop", default := true,
    commit := { message := "dev", authoredDate := "2024-01-04 10:00:00" } }

/-! ## Helper lemmas -/

lemma forwardToWidgets_eq (m : BranchTable) (msg : Msg) : forwardToWidgets m msg = m := by
  unfold forwardToWidgets tableWidgetUpdate listWidgetUpdate
  split <;> rfl

lemma Update_userBranches (m : BranchTable) (L : List Branch) :
    Update m (Msg.userBranches L) =
      some ({ m with flexTable :=
        { m.flexTable with rows := L.map mkRow, currentPage := 1 } }, []) := by
  simp [Update, forwardToWidgets_eq, FlexTable.withRows, FlexTable.pageFirst]

lemma Update_targetBranches (m : BranchTable) (L : List Branch) :
    Update m (Msg.targetBranches L) =
      some ({ m with branchesList := m.branchesList.setItems (applyTargets L) }, []) := by
  simp [Update, forwardToWidgets_eq]

lemma changeVisibility_showMergeTargets (m : BranchTable) (v : Bool) :
    (changeBranchSelectionVisibility m v).showMergeTargets = v := rfl

lemma changeVisibility_filterState (m : BranchTable) (v : Bool) :
    (changeBranchSelectionVisibility m v).branchesList.filterState = FilterState.unfiltered := rfl

lemma changeVisibility_index (m : BranchTable) (v : Bool) :
    (changeBranchSelectionVisibility m v).branchesList.index = 0 := rfl

lemma changeVisibility_false_targetWidth (m : BranchTable) :
    (changeBranchSelectionVisibility m false).flexTable.targetWidth = contentSize m := by
  simp [changeBranchSelectionVisibility, recalculateComponents, tableSize, contentSize,
    ListModel.resetFilter, ListModel.resetSelected]

lemma indexOfNewline_eq_none (l : List Char) (h : '\n' ∉ l) : indexOfNewline l = none := by
  induction l with
  | nil => rfl
  | cons c cs ih =>
    have hc : ¬ c = '\n' := fun hc => h (List.mem_cons.mpr (Or.inl hc.symm))
    have hcs : '\n' ∉ cs := fun hm => h (List.mem_cons_of_mem c hm)
    simp [indexOfNewline, hc, ih hcs]

lemma indexOfNewline_append (l1 l2 : List Char) (h : '\n' ∉ l1) :
    indexOfNewline (l1 ++ '\n' :: l2) = some l1.length := by
  induction l1 with
  | nil => simp [indexOfNewline]
  | cons c cs ih =>
    have hc : ¬ c = '\n' := fun hc => h (List.mem_cons.mpr (Or.inl hc.symm))
    have hcs : '\n' ∉ cs := fun hm => h (List.mem_cons_of_mem c hm)
    simp [indexOfNewline, hc, ih hcs]

lemma take_length_append {α : Type} (l1 l2 : List α) : (l1 ++ l2).take l1.length = l1 := by
  induction l1 with
  | nil => rfl
  | cons c cs ih => simp [ih]

lemma filter_default_nil (L : List Branch) (h : ∀ b ∈ L, b.default = false) :
    L.filter (fun b => b.default) = [] := by
  induction L with
  | nil => rfl
  | cons c cs ih =>
    have hc := h c (List.mem_cons_self c cs)
    have hcs : ∀ b ∈ cs, b.default = false := fun b hb => h b (List.mem_cons_of_mem c hb)
    simp [List.filter_cons, hc, ih hcs]

lemma filter_not_default_self (L : List Branch) (h : ∀ b ∈ L, b.default = false) :
    L.filter (fun b => !b.default) = L := by
  induction L with
  | nil => rfl
  | cons c cs ih =>
    have hc := h c (List.mem_cons_self c cs)
    have hcs : ∀ b ∈ cs, b.default = false := fun b hb => h b (List.mem_cons_of_mem c hb)
    simp [List.filter_cons, hc, ih hcs]

lemma foldl_targetStep (L : List Branch) (D N : List BranchItem) :
    L.foldl targetStep (D ++ N) =
      ((L.filter (fun b => b.default)).map itemOf).reverse ++
        (D ++ (N ++ (L.filter (fun b => !b.default)).map itemOf)) := by
  induction L generalizing D N with
  | nil => simp
  | cons b L ih =>
    cases hb : b.default with
    | true =>
      have h1 : targetStep (D ++ N) b = (itemOf b :: D) ++ N := by
        simp [targetStep, hb]
      rw [List.foldl_cons, h1, ih (itemOf b :: D) N]
      simp [List.filter_cons, hb, List.append_assoc]
    | false =>
      have h1 : targetStep (D ++ N) b = D ++ (N ++ [itemOf b]) := by
        simp [targetStep, hb]
      rw [List.foldl_cons, h1, ih D (N ++ [itemOf b])]
      simp [List.filter_cons, hb, List.append_assoc]

lemma applyTargets_eq (L : List Branch) :
    applyTargets L =
      ((L.filter (fun b => b.default)).map itemOf).reverse ++
        (L.filter (fun b => !b.default)).map itemOf := by
  have h := foldl_targetStep L [] []
  simpa [applyTargets] using h

/-! ## Claim theorems -/

set_option maxRecDepth 4000 in
/-- C3: `shortenTitle` truncates at the first line break when one is
present; if the remaining text is still longer than 255 characters it is
cut to its first 250 characters with the ellipsis marker appended. In
particular an input of 300 non-newline characters yields an output of
length 253, and the title beginning `fix bug` followed by a line break
yields exactly `fix bug`. -/
theorem shortenTitle_spec :
    (∀ l1 l2 : List Char, '\n' ∉ l1 →
      shortenTitle (l1 ++ '\n' :: l2) =
        if 255 < l1.length then l1.take 250 ++ ellipsis else l1) ∧
    (∀ l : List Char, '\n' ∉ l →
      shortenTitle l = if 255 < l.length then l.take 250 ++ ellipsis else l) ∧
    (shortenTitle (List.replicate 300 'a')).length = 253 ∧
    shortenTitle ("fix bug\nextra detail".data) = "fix bug".data := by
  refine ⟨?_, ?_, ?_, ?_⟩
  · intro l1 l2 h
    simp [shortenTitle, indexOfNewline_append l1 l2 h, take_length_append]
  · intro l h
    simp [shortenTitle, indexOfNewline_eq_none l h]
  · decide
  · decide

/-- C3 witness: the first part of `shortenTitle_spec` at a concrete
two-line title. -/
theorem shortenTitle_spec_witness :
    shortenTitle ("abc".data ++ '\n' :: "def".data) =
      if 255 < ("abc".data).length then ("abc".data).take 250 ++ ellipsis else "abc".data :=
  shortenTitle_spec.1 ("abc".data) ("def".data) (by decide)

/-- C4: applying a target-branch sequence with exactly one branch marked
default puts that branch's item at index 0, the other items keeping their
relative input order; a sequence with no default branch is kept in input
order exactly. -/
theorem applyTargets_default_first :
    (∀ (m : BranchTable) (l1 l2 : List Branch) (d : Branch),
      d.default = true → (∀ b ∈ l1, b.default = false) → (∀ b ∈ l2, b.default = false) →
      ∃ m2, Update m (Msg.targetBranches (l1 ++ d :: l2)) = some (m2, []) ∧
        m2.branchesList.items = itemOf d :: (l1 ++ l2).map itemOf) ∧
    (∀ (m : BranchTable) (L : List Branch), (∀ b ∈ L, b.default = false) →
      ∃ m2, Update m (Msg.targetBranches L) = some (m2, []) ∧
        m2.branchesList.items = L.map itemOf) := by
  constructor
  · intro m l1 l2 d hd h1 h2
    rw [Update_targetBranches]
    refine ⟨_, rfl, ?_⟩
    have hf1 : (l1 ++ d :: l2).filter (fun b => b.default) = [d] := by
      rw [List.filter_append, filter_default_nil l1 h1, List.filter_cons]
      simp [hd, filter_default_nil l2 h2]
    have hf2 : (l1 ++ d :: l2).filter (fun b => !b.default) = l1 ++ l2 := by
      rw [List.filter_append, filter_not_default_self l1 h1, List.filter_cons]
      simp [hd, filter_not_default_self l2 h2]
    simp [ListModel.setItems, applyTargets_eq, hf1, hf2]
  · intro m L h
    rw [Update_targetBranches]
    refine ⟨_, rfl, ?_⟩
    simp [ListModel.setItems, applyTargets_eq, filter_default_nil L h,
      filter_not_default_self L h]

/-- C4 witness: `applyTargets_default_first` at a concrete three-branch
input whose default branch sits in the middle. -/
theorem applyTargets_default_first_witness :
    ∃ m2, Update browsingEmptyTable (Msg.targetBranches ([brA] ++ brMain :: [brB]))
        = some (m2, []) ∧
      m2.branchesList.items = itemOf brMain :: ([brA] ++ [brB]).map itemOf :=
  applyTargets_default_first.1 browsingEmptyTable [brA] [brB] brMain rfl
    (by decide) (by decide)

/-- C10: with more than one branch marked default in the input, the
resulting item list is the default branches in reverse input order,
followed by the non-default branches in input order (every default is
prepended to the list built so far). -/
theorem applyTargets_multi_default_order :
    ∀ (m : BranchTable) (L : List Branch),
      1 < (L.filter (fun b => b.default)).length →
      ∃ m2, Update m (Msg.targetBranches L) = some (m2, []) ∧
        m2.branchesList.items =
          ((L.filter (fun b => b.default)).map itemOf).reverse ++
            (L.filter (fun b => !b.default)).map itemOf := by
  intro m L _
  rw [Update_targetBranches]
  exact ⟨_, rfl, by simp [ListModel.setItems, applyTargets_eq]⟩

/-- C10 witness: `applyTargets_multi_default_order` at a concrete input
with two default branches. -/
theorem applyTargets_multi_default_order_witness :
    ∃ m2, Update browsingEmptyTable (Msg.targetBranches [brMain, brA, brDev])
        = some (m2, []) ∧
      m2.branchesList.items =
        (([brMain, brA, brDev].filter (fun b => b.default)).map itemOf).reverse ++
          ([brMain, brA, brDev].filter (fun b => !b.default)).map itemOf :=
  applyTargets_multi_default_order browsingEmptyTable [brMain, brA, brDev] (by decide)

/-- C7: applying a branch list `L` and then a branch list `L2` leaves the
table with exactly the rows of `L2`, in the order of `L2` — a full
replacement with no accumulation — and back on its first page. -/
theorem applyBranches_replaces_rows :
    ∀ (m : BranchTable) (L L2 : List Branch),
      ∃ m1 m2, Update m (Msg.userBranches L) = some (m1, []) ∧
        Update m1 (Msg.userBranches L2) = some (m2, []) ∧
        m2.flexTable.rows = L2.map mkRow ∧
        m2.flexTable.rows.length = L2.length ∧
        m2.flexTable.currentPage = 1 := by
  intro m L L2
  refine ⟨_, _, Update_userBranches m L, Update_userBranches _ L2, ?_, ?_, ?_⟩ <;> simp

/-- C1 counterexample: with a creation call that succeeds (record of iid
7) and a note call that fails, the command emits the nil message — it
does not emit the merge-request-created notification the claim asserts. -/
theorem note_failure_created_claim_false :
    createMergeRequest (fun _ _ _ => Except.ok { iid := 7 }) (fun _ => Except.error ())
        "feature/x" "main" "fix" = none ∧
      ¬ createMergeRequest (fun _ _ _ => Except.ok { iid := 7 }) (fun _ => Except.error ())
          "feature/x" "main" "fix" = some (Msg.mergeRequestCreated { iid := 7 }) := by
  decide

/-- C1 (amended): when the creation call succeeds and the subsequent note
call fails, the note failure is only logged and the command emits no
message at all — in particular nothing is surfaced as a user-facing
failure, but no merge-request-created notification is emitted either. -/
theorem note_failure_yields_no_message :
    ∀ (client : String → String → String → Except ClientError MergeRequestDetails)
      (noteClient : Nat → Except Unit Unit) (s t title : String) (mr : MergeRequestDetails),
      client s t (shortenTitleS title) = Except.ok mr →
      noteClient mr.iid = Except.error () →
      createMergeRequest client noteClient s t title = none := by
  intro client noteClient s t title mr h1 h2
  simp [createMergeRequest, h1, h2]

/-- C1 witness: `note_failure_yields_no_message` at a concrete client and
note oracle. -/
theorem note_failure_yields_no_message_witness :
    createMergeRequest (fun _ _ _ => Except.ok { iid := 3 }) (fun _ => Except.error ())
      "src" "dst" "msg" = none :=
  note_failure_yields_no_message (fun _ _ _ => Except.ok { iid := 3 })
    (fun _ => Except.error ()) "src" "dst" "msg" { iid := 3 } rfl rfl

/-- C2 (code-bug evidence): in picking mode with no filter active and an
empty source-branch table, pressing the confirm-target key does not take
the guarded no-op path the claim requires — the code reads the highlighted
row's metadata through an unchecked type assertion, which panics on the
nil value (`none` in the model). -/
theorem confirm_target_empty_table_panics :
    Update pickingEmptyTable (Msg.keyMsg BranchKey.selectTargetBranch) = none := by
  decide

/-- C5 (code-bug evidence): in browsing mode with an empty source-branch
table, pressing the merge-to-favourite key likewise reaches the unchecked
type assertion on the highlighted row and panics (`none` in the model)
instead of issuing no creation request. -/
theorem merge_favourite_empty_table_panics :
    Update browsingEmptyTable (Msg.keyMsg (BranchKey.mergeFavourite 0)) = none := by
  decide

/-- C6: from browsing, the merge-automatically key enters picking mode and
resets the picker's filter and selection; from picking mode with no active
filter, the close-picker key returns to browsing and gives the source
table back the full content width; the merge-automatically key never
changes the mode when picking mode is already active. -/
theorem mode_transitions_spec :
    ∀ m : BranchTable,
      (m.keys.mergeAutomaticallyEnabled = true → m.showMergeTargets = false →
        ∃ m2, Update m (Msg.keyMsg BranchKey.mergeAutomatically) = some (m2, []) ∧
          m2.showMergeTargets = true ∧
          m2.branchesList.filterState = FilterState.unfiltered ∧
          m2.branchesList.index = 0) ∧
      (m.keys.closeEnabled = true → m.showMergeTargets = true →
        m.branchesList.filterState ≠ FilterState.filtering →
        ∃ m2, Update m (Msg.keyMsg BranchKey.closeTargetBranchesList) = some (m2, []) ∧
          m2.showMergeTargets = false ∧
          m2.flexTable.targetWidth = contentSize m) ∧
      (m.showMergeTargets = true →
        ∃ m2, Update m (Msg.keyMsg BranchKey.mergeAutomatically) = some (m2, []) ∧
          m2.showMergeTargets = true) := by
  intro m
  refine ⟨?_, ?_, ?_⟩
  · intro hk hm
    refine ⟨changeBranchSelectionVisibility m true, ?_, rfl, rfl, rfl⟩
    simp [Update, hk, hm, forwardToWidgets_eq]
  · intro hk hm hf
    refine ⟨changeBranchSelectionVisibility m false, ?_, rfl,
      changeVisibility_false_targetWidth m⟩
    simp [Update, hk, hm, hf, forwardToWidgets_eq]
  · intro hm
    refine ⟨m, ?_, hm⟩
    simp [Update, hm, forwardToWidgets_eq]

/-- C6 witness: `mode_transitions_spec` at the concrete browsing and
picking states. -/
theorem mode_transitions_spec_witness :
    (∃ m2, Update browsingEmptyTable (Msg.keyMsg BranchKey.mergeAutomatically)
        = some (m2, []) ∧
      m2.showMergeTargets = true ∧
      m2.branchesList.filterState = FilterState.unfiltered ∧
      m2.branchesList.index = 0) ∧
    (∃ m2, Update pickingEmptyTable (Msg.keyMsg BranchKey.closeTargetBranchesList)
        = some (m2, []) ∧
      m2.showMergeTargets = false ∧
      m2.flexTable.targetWidth = contentSize pickingEmptyTable) :=
  ⟨(mode_transitions_spec browsingEmptyTable).1 rfl rfl,
   (mode_transitions_spec pickingEmptyTable).2.1 rfl rfl (by decide)⟩

/-- C8: an already-exists error from the creation call yields a failure
notification whose message contains the source branch's name; a network
error yields the message advising to check the network connection; any
other error yields the generic message pointing at the log file; and a
failure event changes nothing about the workflow mode. -/
theorem createMergeRequest_error_classification :
    (∀ (client : String → String → String → Except ClientError MergeRequestDetails)
        (noteClient : Nat → Except Unit Unit) (s t title : String),
      client s t (shortenTitleS title) = Except.error ClientError.mergeRequestAlreadyExists →
      createMergeRequest client noteClient s t title =
          some (Msg.failed ("merge request from branch " ++ s ++ " already exists")) ∧
        ∃ p q, "merge request from branch " ++ s ++ " already exists" = p ++ s ++ q) ∧
    (∀ (client : String → String → String → Except ClientError MergeRequestDetails)
        (noteClient : Nat → Except Unit Unit) (s t title : String),
      client s t (shortenTitleS title) = Except.error ClientError.netError →
      createMergeRequest client noteClient s t title =
        some (Msg.failed "merge request creation failed, please check your network connection")) ∧
    (∀ (client : String → String → String → Except ClientError MergeRequestDetails)
        (noteClient : Nat → Except Unit Unit) (s t title : String),
      client s t (shortenTitleS title) = Except.error ClientError.otherError →
      createMergeRequest client noteClient s t title =
        some (Msg.failed "unrecognized error when creating merge request, please check log file")) ∧
    (∀ (m : BranchTable) (message : String),
      ∃ m2, Update m (Msg.failed message) = some (m2, []) ∧
        m2.showMergeTargets = m.showMergeTargets) := by
  refine ⟨?_, ?_, ?_, ?_⟩
  · intro client noteClient s t title h
    refine ⟨?_, "merge request from branch ", " already exists", rfl⟩
    simp [createMergeRequest, h]
  · intro client noteClient s t title h
    simp [createMergeRequest, h]
  · intro client noteClient s t title h
    simp [createMergeRequest, h]
  · intro m message
    exact ⟨m, by simp [Update, forwardToWidgets_eq], rfl⟩

/-- C8 witness: the already-exists part of
`createMergeRequest_error_classification` at source branch `feature/x`. -/
theorem createMergeRequest_error_classification_witness :
    createMergeRequest (fun _ _ _ => Except.error ClientError.mergeRequestAlreadyExists)
        (fun _ => Except.ok ()) "feature/x" "main" "title"
        = some (Msg.failed ("merge request from branch " ++ "feature/x" ++ " already exists")) ∧
      ∃ p q, "merge request from branch " ++ "feature/x" ++ " already exists"
        = p ++ "feature/x" ++ q :=
  createMergeRequest_error_classification.1
    (fun _ _ _ => Except.error ClientError.mergeRequestAlreadyExists)
    (fun _ => Except.ok ()) "feature/x" "main" "title" rfl

/-- C9: after any `changeBranchSelectionVisibility` call, every binding
flag is the stated pure function of the resulting mode flag: the
merge-automatically binding and every merge-to-favourite binding are
enabled exactly when the mode is browsing, and the close-picker and
confirm-target bindings exactly when the mode is picking. -/
theorem bindings_pure_function_of_mode :
    ∀ (m : BranchTable) (v : Bool),
      ((changeBranchSelectionVisibility m v).keys.mergeAutomaticallyEnabled
          = !(changeBranchSelectionVisibility m v).showMergeTargets) ∧
      ((changeBranchSelectionVisibility m v).keys.closeEnabled
          = (changeBranchSelectionVisibility m v).showMergeTargets) ∧
      ((changeBranchSelectionVisibility m v).keys.selectEnabled
          = (changeBranchSelectionVisibility m v).showMergeTargets) ∧
      ((changeBranchSelectionVisibility m v).keys.mergeFavouriteEnabled.all
          (fun b => b == !(changeBranchSelectionVisibility m v).showMergeTargets) = true) := by
  intro m v
  refine ⟨rfl, rfl, rfl, ?_⟩
  simp [changeBranchSelectionVisibility, recalculateComponents, List.all_eq_true]

end Mergemate
